import Mathlib

/-!
Verification of the quality-scoring and pricing core of the fabric-defect
project (files `src/quality_scorer.py`, `src/pricing.py`, `app.py`).

Python floats are modelled as exact rationals (`ℚ`); Python `int()` is
truncation toward zero; Python `round(x, n)` is round-half-to-even after
scaling by `10^n`; Python `//` on integers is floor division (`Int.fdiv`).
Presentation-only data (description strings, the per-class summary dict,
colors, report formatting) is omitted: no verified property depends on it.
-/

namespace TespitProje

/-- Defect severity (`quality_scorer.py`, `class DefectSeverity`). -/
inductive DefectSeverity where
  | MAJOR
  | MINOR
deriving DecidableEq, Repr

/-- Quality grade (`quality_scorer.py`, `class QualityGrade`). -/
inductive QualityGrade where
  | A
  | B
  | C
  | REJECT
deriving DecidableEq, Repr

/-- Python `int(x)` on a float: truncation toward zero. -/
def pyTrunc (q : ℚ) : ℤ := if 0 ≤ q then ⌊q⌋ else ⌈q⌉

/-- Python `round(x)` to an integer: round half to even. -/
def pyRoundInt (q : ℚ) : ℤ :=
  let f := ⌊q⌋
  let r := q - f
  if r < 1/2 then f
  else if 1/2 < r then f + 1
  else if f % 2 = 0 then f else f + 1

/-- Python `round(x, 2)`. -/
def pyRound2 (q : ℚ) : ℚ := (pyRoundInt (q * 100) : ℚ) / 100

/-- Python `round(x, 1)`. -/
def pyRound1 (q : ℚ) : ℚ := (pyRoundInt (q * 10) : ℚ) / 10

/-- `QualityScorer.INCH_9_CM = 23.0` (`quality_scorer.py` line 75). -/
def INCH_9_CM : ℚ := 23

/-- The Python dict `QualityScorer.DEFECT_SEVERITY` (lines 86-91); `none`
means the key is absent (an unknown class). -/
def DEFECT_SEVERITY (class_name : String) : Option DefectSeverity :=
  if class_name = "Hole" then some .MAJOR
  else if class_name = "Stain" then some .MAJOR
  else if class_name = "Line" then some .MINOR
  else if class_name = "Knot" then some .MINOR
  else none

/-- Constructor state of `QualityScorer` (lines 114-125). -/
structure QualityScorer where
  max_points_per_100m2 : ℚ
  use_major_minor_system : Bool
deriving DecidableEq, Repr

/-- `QualityScorer()` with its default arguments. -/
def default_scorer : QualityScorer :=
  { max_points_per_100m2 := 40, use_major_minor_system := true }

/-- `QualityScorer.get_defect_severity` (lines 127-144): dict lookup with
default `MINOR`, then the `length_cm > 23` override to `MAJOR`.  The method
reads only class-level constants, so `self` is dropped. -/
def get_defect_severity (class_name : String) (length_cm : ℚ) : DefectSeverity :=
  let base_severity := (DEFECT_SEVERITY class_name).getD .MINOR
  if length_cm > INCH_9_CM then .MAJOR
  else base_severity

/-- `QualityScorer.calculate_four_point_score` (lines 146-174), points only
(the description string is presentation).  `FOUR_POINT_RULES` is scanned in
order; its last entry has threshold `float('inf')`, so `length <= inf`
always holds and the trailing `return 4` is unreachable. -/
def calculate_four_point_score (length_cm : ℚ) : ℚ :=
  if length_cm ≤ 7.5 then 1
  else if length_cm ≤ 15 then 2
  else if length_cm ≤ 23 then 3
  else 4

/-- `QualityScorer.calculate_major_minor_score` (lines 176-208), points only.
The source computes `increments = max(1, -(-int(length_cm) // int(self.INCH_9_CM)))`:
the length is truncated to an integer by `int()`, then ceiling-divided by 23
via the negated floor division `//`. -/
def calculate_major_minor_score (length_cm : ℚ) (severity : DefectSeverity) : ℚ :=
  let increments : ℤ := max 1 (-(Int.fdiv (-(pyTrunc length_cm)) 23))
  let points : ℚ :=
    match severity with
    | .MAJOR => (increments : ℚ) * 1
    | .MINOR => (increments : ℚ) * 0.25
  min points 4

/-- `QualityScorer.calculate_defect_points` (lines 210-233): severity, then
points from the mode selected at construction. -/
def calculate_defect_points (s : QualityScorer) (class_name : String) (length_cm : ℚ) :
    ℚ × DefectSeverity :=
  let severity := get_defect_severity class_name length_cm
  let points :=
    if s.use_major_minor_system then calculate_major_minor_score length_cm severity
    else calculate_four_point_score length_cm
  (points, severity)

/-- `QualityScorer.calculate_grade` (lines 235-249): scan `GRADE_THRESHOLDS`
in insertion order (A, B, C, REJECT), first band with
`min_pts <= p < max_pts` wins; the REJECT band's upper bound is
`float('inf')`, so `p < inf` always holds there; the trailing fallback
returns `REJECT`. -/
def calculate_grade (points_per_100m2 : ℚ) : QualityGrade :=
  if 0 ≤ points_per_100m2 ∧ points_per_100m2 < 20 then .A
  else if 20 ≤ points_per_100m2 ∧ points_per_100m2 < 40 then .B
  else if 40 ≤ points_per_100m2 ∧ points_per_100m2 < 60 then .C
  else if 60 ≤ points_per_100m2 then .REJECT
  else .REJECT

/-- An input defect record (`score_fabric` consumes a list of Python dicts);
`none` models a missing key, read with `dict.get` defaults
`("Unknown", 0)` (lines 275-276). -/
structure DefectDict where
  class_name : Option String
  length_cm : Option ℚ
deriving DecidableEq, Repr

/-- `DefectScore` dataclass (lines 28-35); the `description` string is
presentation-only and omitted. -/
structure DefectScore where
  defect_class : String
  severity : DefectSeverity
  length_cm : ℚ
  points : ℚ
deriving DecidableEq, Repr

/-- `QualityReport` dataclass (lines 38-50); `grade_description` and the
per-class `summary` dict are presentation-only and omitted. -/
structure QualityReport where
  total_points : ℚ
  major_points : ℚ
  minor_points : ℚ
  points_per_100m2 : ℚ
  grade : QualityGrade
  defect_scores : List DefectScore
  fabric_area_m2 : ℚ
  fabric_width_cm : ℚ
deriving DecidableEq, Repr

/-- One iteration of the `score_fabric` loop body (lines 274-292): read the
dict fields with their defaults and score the defect. -/
def scored_defect (s : QualityScorer) (d : DefectDict) : DefectScore :=
  let class_name := d.class_name.getD "Unknown"
  let length_cm := d.length_cm.getD 0
  let ps := calculate_defect_points s class_name length_cm
  { defect_class := class_name
    severity := ps.2
    length_cm := length_cm
    points := ps.1 }

/-- `QualityScorer.score_fabric` (lines 251-329).  The single Python loop
accumulates four values; it is rendered here as one map plus one left fold
per accumulator (same additions in the same order).  Density is
`total/area*100` guarded by `area > 0`; the grade is computed from the
unrounded density; the three point fields and the density are rounded to 2
decimals in the returned report. -/
def score_fabric (s : QualityScorer) (defects : List DefectDict)
    (fabric_area_m2 : ℚ) (fabric_width_cm : ℚ) : QualityReport :=
  let defect_scores := defects.map (scored_defect s)
  let total_points := defect_scores.foldl (fun acc ds => acc + ds.points) 0
  let major_points :=
    defect_scores.foldl (fun acc ds => acc + if ds.severity = .MAJOR then ds.points else 0) 0
  let minor_points :=
    defect_scores.foldl (fun acc ds => acc + if ds.severity = .MAJOR then 0 else ds.points) 0
  let points_per_100m2 :=
    if fabric_area_m2 > 0 then total_points / fabric_area_m2 * 100 else 0
  let grade := calculate_grade points_per_100m2
  { total_points := pyRound2 total_points
    major_points := pyRound2 major_points
    minor_points := pyRound2 minor_points
    points_per_100m2 := pyRound2 points_per_100m2
    grade := grade
    defect_scores := defect_scores
    fabric_area_m2 := fabric_area_m2
    fabric_width_cm := fabric_width_cm }

/-- `PricingResult` dataclass (`pricing.py` lines 11-22). -/
structure PricingResult where
  base_price_per_m2 : ℚ
  adjusted_price_per_m2 : ℚ
  total_base_price : ℚ
  total_adjusted_price : ℚ
  discount_percentage : ℚ
  discount_amount : ℚ
  fabric_area_m2 : ℚ
  quality_grade : QualityGrade
  currency : String
deriving DecidableEq, Repr

/-- `PricingCalculator.DEFAULT_GRADE_MULTIPLIERS` (`pricing.py` lines 29-34)
as a total lookup (`none` would mean a missing dict key; the default table
has all four). -/
def DEFAULT_GRADE_MULTIPLIERS : QualityGrade → Option ℚ
  | .A => some 1
  | .B => some 0.85
  | .C => some 0.70
  | .REJECT => some 0

/-- Constructor state of `PricingCalculator` (`pricing.py` lines 36-53).
The constructor accepts exactly these four parameters; there is no
discount-multiplier or maximum-discount-rate configuration. -/
structure PricingCalculator where
  base_price_per_m2 : ℚ
  currency : String
  grade_multipliers : QualityGrade → Option ℚ
  reject_price_per_m2 : ℚ

/-- `PricingCalculator()` with its default arguments. -/
def default_calculator : PricingCalculator :=
  { base_price_per_m2 := 100
    currency := "TL"
    grade_multipliers := DEFAULT_GRADE_MULTIPLIERS
    reject_price_per_m2 := 0 }

/-- Python `custom_base_price or self.base_price_per_m2`: `None` and `0.0`
are both falsy, so either selects the configured base price. -/
def resolve_base_price (custom_base_price : Option ℚ) (configured : ℚ) : ℚ :=
  match custom_base_price with
  | none => configured
  | some c => if c = 0 then configured else c

/-- `PricingCalculator.calculate_price` (`pricing.py` lines 55-101): grade
multiplier from the table (default 0), scrap price substituted for REJECT,
totals by area, discount from the multiplier; monetary fields rounded to 2
decimals (percentage to 1) in the returned result. -/
def calculate_price (pcalc : PricingCalculator) (quality_report : QualityReport)
    (custom_base_price : Option ℚ) : PricingResult :=
  let base_price := resolve_base_price custom_base_price pcalc.base_price_per_m2
  let fabric_area := quality_report.fabric_area_m2
  let grade := quality_report.grade
  let multiplier := (pcalc.grade_multipliers grade).getD 0
  let adjusted_price_per_m2 :=
    if grade = .REJECT then pcalc.reject_price_per_m2 else base_price * multiplier
  let total_base_price := base_price * fabric_area
  let total_adjusted_price := adjusted_price_per_m2 * fabric_area
  let discount_percentage := (1 - multiplier) * 100
  let discount_amount := total_base_price - total_adjusted_price
  { base_price_per_m2 := base_price
    adjusted_price_per_m2 := pyRound2 adjusted_price_per_m2
    total_base_price := pyRound2 total_base_price
    total_adjusted_price := pyRound2 total_adjusted_price
    discount_percentage := pyRound1 discount_percentage
    discount_amount := pyRound2 discount_amount
    fabric_area_m2 := fabric_area
    quality_grade := grade
    currency := pcalc.currency }

/-- `PricingCalculator.calculate_price_simple` (`pricing.py` lines 103-143):
same computation from a bare grade and area. -/
def calculate_price_simple (pcalc : PricingCalculator) (grade : QualityGrade)
    (fabric_area_m2 : ℚ) (custom_base_price : Option ℚ) : PricingResult :=
  let base_price := resolve_base_price custom_base_price pcalc.base_price_per_m2
  let multiplier := (pcalc.grade_multipliers grade).getD 0
  let adjusted_price_per_m2 :=
    if grade = .REJECT then pcalc.reject_price_per_m2 else base_price * multiplier
  let total_base_price := base_price * fabric_area_m2
  let total_adjusted_price := adjusted_price_per_m2 * fabric_area_m2
  let discount_percentage := (1 - multiplier) * 100
  let discount_amount := total_base_price - total_adjusted_price
  { base_price_per_m2 := base_price
    adjusted_price_per_m2 := pyRound2 adjusted_price_per_m2
    total_base_price := pyRound2 total_base_price
    total_adjusted_price := pyRound2 total_adjusted_price
    discount_percentage := pyRound1 discount_percentage
    discount_amount := pyRound2 discount_amount
    fabric_area_m2 := fabric_area_m2
    quality_grade := grade
    currency := pcalc.currency }

/-- Modelled from the spec: the density-proportional discount rate
`rate(points_per_100m2) = min(points_per_100m2 * multiplier / 100,
max_discount_rate)` that section 4.2 of the spec (and the call in
`app.py` lines 89-93) attribute to the Pricer.  No such computation exists
in `src/pricing.py`; this definition is kept solely to compare the spec's
policy with what the source computes. -/
def spec_density_discount_rate (points_per_100m2 multiplier max_discount_rate : ℚ) : ℚ :=
  min (points_per_100m2 * multiplier / 100) max_discount_rate

/-! ### Helper lemmas about the Python arithmetic primitives -/

lemma pyTrunc_intCast (m : ℤ) : pyTrunc (m : ℚ) = m := by
  unfold pyTrunc
  split <;> simp

lemma pyRoundInt_intCast (m : ℤ) : pyRoundInt (m : ℚ) = m := by
  unfold pyRoundInt
  simp only [Int.floor_intCast, sub_self]
  norm_num

/-- Multiples of a quarter: the only point values the scorer produces. -/
def IsQuarter (q : ℚ) : Prop := ∃ k : ℤ, q = (k : ℚ) / 4

lemma isQuarter_zero : IsQuarter 0 := ⟨0, by norm_num⟩

lemma isQuarter_intCast (m : ℤ) : IsQuarter (m : ℚ) := ⟨4 * m, by push_cast; ring⟩

lemma isQuarter_add {a b : ℚ} (ha : IsQuarter a) (hb : IsQuarter b) : IsQuarter (a + b) := by
  obtain ⟨k, hk⟩ := ha
  obtain ⟨l, hl⟩ := hb
  exact ⟨k + l, by rw [hk, hl]; push_cast; ring⟩

lemma isQuarter_min {a b : ℚ} (ha : IsQuarter a) (hb : IsQuarter b) : IsQuarter (min a b) := by
  rcases le_total a b with h | h
  · rwa [min_eq_left h]
  · rwa [min_eq_right h]

lemma isQuarter_quarter_mul_intCast (m : ℤ) : IsQuarter ((m : ℚ) * 0.25) := by
  exact ⟨m, by rw [show (0.25 : ℚ) = 1/4 by norm_num]; ring⟩

/-- `round(x, 2)` is the identity on multiples of a quarter. -/
lemma pyRound2_of_isQuarter {q : ℚ} (h : IsQuarter q) : pyRound2 q = q := by
  obtain ⟨k, hk⟩ := h
  have h100 : q * 100 = ((25 * k : ℤ) : ℚ) := by rw [hk]; push_cast; ring
  rw [pyRound2, h100, pyRoundInt_intCast, hk]
  push_cast
  ring

/-- A left fold that only adds equals the starting value plus the mapped sum. -/
lemma foldl_add_eq_sum {α : Type} (f : α → ℚ) :
    ∀ (l : List α) (a : ℚ), l.foldl (fun acc x => acc + f x) a = a + (l.map f).sum
  | [], a => by simp
  | x :: xs, a => by
    simp only [List.foldl_cons, List.map_cons, List.sum_cons]
    rw [foldl_add_eq_sum f xs (a + f x)]
    ring

/-- The Python idiom `-(-m // 23)` (floor division) is ceiling division. -/
lemma neg_fdiv_neg_eq_ceil (m : ℤ) : -(Int.fdiv (-m) 23) = ⌈(m : ℚ) / 23⌉ := by
  have h1 : Int.fdiv (-m) 23 = (-m) / 23 := Int.fdiv_eq_ediv _ (by norm_num)
  have h2 : ⌊((-m : ℤ) : ℚ) / ((23 : ℕ) : ℚ)⌋ = (-m) / ((23 : ℕ) : ℤ) :=
    Rat.floor_intCast_div_natCast (-m) 23
  have h3 : ((-m : ℤ) : ℚ) / ((23 : ℕ) : ℚ) = -((m : ℚ) / 23) := by push_cast; ring
  rw [h1]
  have h4 : (-m) / (23 : ℤ) = -⌈(m : ℚ) / 23⌉ := by
    rw [show ((23 : ℤ)) = ((23 : ℕ) : ℤ) by norm_num] at *
    rw [← h2, h3, Int.floor_neg]
  rw [h4, neg_neg]

lemma isQuarter_four_point (l : ℚ) : IsQuarter (calculate_four_point_score l) := by
  unfold calculate_four_point_score
  split_ifs
  · exact ⟨4, by norm_num⟩
  · exact ⟨8, by norm_num⟩
  · exact ⟨12, by norm_num⟩
  · exact ⟨16, by norm_num⟩

lemma isQuarter_major_minor (l : ℚ) (sev : DefectSeverity) :
    IsQuarter (calculate_major_minor_score l sev) := by
  unfold calculate_major_minor_score
  cases sev
  · exact isQuarter_min (by rw [mul_one]; exact isQuarter_intCast _) ⟨16, by norm_num⟩
  · exact isQuarter_min (isQuarter_quarter_mul_intCast _) ⟨16, by norm_num⟩

lemma isQuarter_scored_points (s : QualityScorer) (d : DefectDict) :
    IsQuarter (scored_defect s d).points := by
  unfold scored_defect calculate_defect_points
  by_cases h : s.use_major_minor_system <;> simp only [h]
  · simpa using isQuarter_major_minor _ _
  · simpa using isQuarter_four_point _

lemma isQuarter_sum : ∀ (l : List ℚ), (∀ q ∈ l, IsQuarter q) → IsQuarter l.sum
  | [], _ => by simpa using isQuarter_zero
  | x :: xs, h => by
    simp only [List.sum_cons]
    exact isQuarter_add (h x (by simp)) (isQuarter_sum xs fun q hq => h q (by simp [hq]))

/-- Splitting the per-defect point sum by the severity test used in the
`score_fabric` loop. -/
lemma sum_points_split : ∀ l : List DefectScore,
    (l.map fun ds => ds.points).sum
      = (l.map fun ds => if ds.severity = DefectSeverity.MAJOR then ds.points else 0).sum
        + (l.map fun ds => if ds.severity = DefectSeverity.MAJOR then 0 else ds.points).sum
  | [] => by simp
  | x :: xs => by
    simp only [List.map_cons, List.sum_cons, sum_points_split xs]
    by_cases h : x.severity = .MAJOR <;> simp [h] <;> ring

/-! ### Concrete evaluations used by counterexamples and witnesses -/

lemma fdiv_zero_23 : (-(0 : ℤ)).fdiv 23 = 0 := by decide

lemma scored_hole0 :
    scored_defect default_scorer ⟨some "Hole", some 0⟩
      = { defect_class := "Hole", severity := .MAJOR, length_cm := 0, points := 1 } := by
  norm_num [scored_defect, calculate_defect_points, default_scorer, get_defect_severity,
    DEFECT_SEVERITY, INCH_9_CM, calculate_major_minor_score, pyTrunc, fdiv_zero_23, min_def]

lemma pyRound2_zero_val : pyRound2 0 = 0 := by
  norm_num [pyRound2, pyRoundInt]

lemma report_hole0_area1 :
    score_fabric default_scorer [⟨some "Hole", some 0⟩] 1 150
      = { total_points := 1, major_points := 1, minor_points := 0, points_per_100m2 := 100,
          grade := .REJECT,
          defect_scores := [{ defect_class := "Hole", severity := .MAJOR, length_cm := 0,
                              points := 1 }],
          fabric_area_m2 := 1, fabric_width_cm := 150 } := by
  rw [score_fabric]
  norm_num [scored_hole0, calculate_grade, pyRound2, pyRoundInt]

lemma report_hole0_area4 :
    score_fabric default_scorer [⟨some "Hole", some 0⟩] 4 150
      = { total_points := 1, major_points := 1, minor_points := 0, points_per_100m2 := 25,
          grade := .B,
          defect_scores := [{ defect_class := "Hole", severity := .MAJOR, length_cm := 0,
                              points := 1 }],
          fabric_area_m2 := 4, fabric_width_cm := 150 } := by
  rw [score_fabric]
  norm_num [scored_hole0, calculate_grade, pyRound2, pyRoundInt]

lemma report_hole0_x4_area10 :
    score_fabric default_scorer
        [⟨some "Hole", some 0⟩, ⟨some "Hole", some 0⟩, ⟨some "Hole", some 0⟩,
         ⟨some "Hole", some 0⟩] 10 150
      = { total_points := 4, major_points := 4, minor_points := 0, points_per_100m2 := 40,
          grade := .C,
          defect_scores := [{ defect_class := "Hole", severity := .MAJOR, length_cm := 0,
                              points := 1 },
                            { defect_class := "Hole", severity := .MAJOR, length_cm := 0,
                              points := 1 },
                            { defect_class := "Hole", severity := .MAJOR, length_cm := 0,
                              points := 1 },
                            { defect_class := "Hole", severity := .MAJOR, length_cm := 0,
                              points := 1 }],
          fabric_area_m2 := 10, fabric_width_cm := 150 } := by
  rw [score_fabric]
  norm_num [scored_hole0, calculate_grade, pyRound2, pyRoundInt]

lemma report_empty_negarea :
    score_fabric default_scorer [] (-1) 150
      = { total_points := 0, major_points := 0, minor_points := 0, points_per_100m2 := 0,
          grade := .A, defect_scores := [], fabric_area_m2 := -1, fabric_width_cm := 150 } := by
  rw [score_fabric]
  norm_num [calculate_grade, pyRound2, pyRoundInt]

/-! ### Claim theorems -/

/-- C6: grading is a total function on nonnegative densities following the
half-open partition: densities in [0, 20) map to A, [20, 40) to B,
[40, 60) to C, and [60, ∞) to REJECT, lower-inclusive and upper-exclusive,
with no gaps or overlaps. -/
theorem c6_grade_partition (p : ℚ) (hp : 0 ≤ p) :
    (calculate_grade p = .A ↔ p < 20) ∧
    (calculate_grade p = .B ↔ 20 ≤ p ∧ p < 40) ∧
    (calculate_grade p = .C ↔ 40 ≤ p ∧ p < 60) ∧
    (calculate_grade p = .REJECT ↔ 60 ≤ p) := by
  have hA : p < 20 → calculate_grade p = .A := fun h => by
    unfold calculate_grade; rw [if_pos ⟨hp, h⟩]
  have hB : 20 ≤ p → p < 40 → calculate_grade p = .B := fun ha hb => by
    unfold calculate_grade
    rw [if_neg (by push_neg; intro; linarith), if_pos ⟨ha, hb⟩]
  have hC : 40 ≤ p → p < 60 → calculate_grade p = .C := fun ha hb => by
    unfold calculate_grade
    rw [if_neg (by push_neg; intro; linarith), if_neg (by push_neg; intro; linarith),
      if_pos ⟨ha, hb⟩]
  have hR : 60 ≤ p → calculate_grade p = .REJECT := fun ha => by
    unfold calculate_grade
    rw [if_neg (by push_neg; intro; linarith), if_neg (by push_neg; intro; linarith),
      if_neg (by push_neg; intro; linarith), if_pos ha]
  refine ⟨⟨fun h => ?_, hA⟩, ⟨fun h => ?_, fun h => hB h.1 h.2⟩,
    ⟨fun h => ?_, fun h => hC h.1 h.2⟩, ⟨fun h => ?_, hR⟩⟩
  · by_contra hc
    push_neg at hc
    rcases lt_or_le p 40 with h4 | h4
    · rw [hB hc h4] at h; simp at h
    · rcases lt_or_le p 60 with h6 | h6
      · rw [hC h4 h6] at h; simp at h
      · rw [hR h6] at h; simp at h
  · rcases lt_or_le p 20 with h2 | h2
    · rw [hA h2] at h; simp at h
    · rcases lt_or_le p 40 with h4 | h4
      · exact ⟨h2, h4⟩
      · rcases lt_or_le p 60 with h6 | h6
        · rw [hC h4 h6] at h; simp at h
        · rw [hR h6] at h; simp at h
  · rcases lt_or_le p 20 with h2 | h2
    · rw [hA h2] at h; simp at h
    · rcases lt_or_le p 40 with h4 | h4
      · rw [hB h2 h4] at h; simp at h
      · rcases lt_or_le p 60 with h6 | h6
        · exact ⟨h4, h6⟩
        · rw [hR h6] at h; simp at h
  · rcases lt_or_le p 20 with h2 | h2
    · rw [hA h2] at h; simp at h
    · rcases lt_or_le p 40 with h4 | h4
      · rw [hB h2 h4] at h; simp at h
      · rcases lt_or_le p 60 with h6 | h6
        · rw [hC h4 h6] at h; simp at h
        · exact h6

/-- C6 witness: the partition instantiated at density 25, which lies in the
B band. -/
theorem c6_grade_partition_witness :
    (0 : ℚ) ≤ 25 ∧
    ((calculate_grade 25 = .A ↔ (25 : ℚ) < 20) ∧
     (calculate_grade 25 = .B ↔ (20 : ℚ) ≤ 25 ∧ (25 : ℚ) < 40) ∧
     (calculate_grade 25 = .C ↔ (40 : ℚ) ≤ 25 ∧ (25 : ℚ) < 60) ∧
     (calculate_grade 25 = .REJECT ↔ (60 : ℚ) ≤ 25)) :=
  ⟨by norm_num, c6_grade_partition 25 (by norm_num)⟩

/-- C7: in 4-Point mode, points for a nonnegative length are exactly 1 on
[0, 7.5], 2 on (7.5, 15], 3 on (15, 23] and 4 above 23 — each boundary
value falls in the lower tier — so points lie in {1, 2, 3, 4} and are
monotonically non-decreasing in the length. -/
theorem c7_four_point_tiers :
    (∀ l : ℚ, 0 ≤ l →
      ((calculate_four_point_score l = 1 ↔ l ≤ 7.5) ∧
       (calculate_four_point_score l = 2 ↔ 7.5 < l ∧ l ≤ 15) ∧
       (calculate_four_point_score l = 3 ↔ 15 < l ∧ l ≤ 23) ∧
       (calculate_four_point_score l = 4 ↔ 23 < l))) ∧
    (calculate_four_point_score 7.5 = 1 ∧ calculate_four_point_score 15 = 2 ∧
     calculate_four_point_score 23 = 3) ∧
    (∀ l : ℚ, 0 ≤ l →
      (calculate_four_point_score l = 1 ∨ calculate_four_point_score l = 2 ∨
       calculate_four_point_score l = 3 ∨ calculate_four_point_score l = 4)) ∧
    (∀ l1 l2 : ℚ, l1 ≤ l2 → calculate_four_point_score l1 ≤ calculate_four_point_score l2) := by
  refine ⟨?_, ⟨?_, ?_, ?_⟩, ?_, ?_⟩
  · intro l _
    unfold calculate_four_point_score
    split_ifs with h1 h2 h3 <;> refine ⟨?_, ?_, ?_, ?_⟩ <;>
      constructor <;> intro h <;>
        first
          | rfl
          | linarith
          | (exact ⟨by linarith, by linarith⟩)
  · norm_num [calculate_four_point_score]
  · norm_num [calculate_four_point_score]
  · norm_num [calculate_four_point_score]
  · intro l _
    unfold calculate_four_point_score
    split_ifs <;> norm_num
  · intro l1 l2 h
    unfold calculate_four_point_score
    split_ifs <;> linarith

/-- C7 witness: the tier characterization instantiated at length 10, which
scores 2 points. -/
theorem c7_four_point_tiers_witness :
    (0 : ℚ) ≤ 10 ∧
    (calculate_four_point_score 10 = 2 ↔ (7.5 : ℚ) < 10 ∧ (10 : ℚ) ≤ 15) :=
  ⟨by norm_num, ((c7_four_point_tiers.1 10 (by norm_num)).2).1⟩

/-- C8: severity classification returns the base class severity (Hole and
Stain are Major, Line and Knot are Minor, unknown labels default to Minor)
except that any defect longer than 23 cm is forced to Major regardless of
class. -/
theorem c8_severity_classification :
    (∀ l : ℚ, l ≤ 23 →
      (get_defect_severity "Hole" l = .MAJOR ∧ get_defect_severity "Stain" l = .MAJOR ∧
       get_defect_severity "Line" l = .MINOR ∧ get_defect_severity "Knot" l = .MINOR)) ∧
    (∀ (c : String) (l : ℚ), l ≤ 23 →
      c ≠ "Hole" → c ≠ "Stain" → c ≠ "Line" → c ≠ "Knot" →
      get_defect_severity c l = .MINOR) ∧
    (∀ (c : String) (l : ℚ), 23 < l → get_defect_severity c l = .MAJOR) := by
  refine ⟨?_, ?_, ?_⟩
  · intro l h
    have hn : ¬(l > INCH_9_CM) := by simp [INCH_9_CM]; linarith
    refine ⟨?_, ?_, ?_, ?_⟩ <;> simp [get_defect_severity, DEFECT_SEVERITY, hn]
  · intro c l h h1 h2 h3 h4
    have hn : ¬(l > INCH_9_CM) := by simp [INCH_9_CM]; linarith
    simp [get_defect_severity, DEFECT_SEVERITY, hn, h1, h2, h3, h4]
  · intro c l h
    have hy : l > INCH_9_CM := by simp [INCH_9_CM]; linarith
    simp [get_defect_severity, hy]

/-- C8 witness: classification at concrete inputs — a 5 cm Hole is Major, a
5 cm unknown label is Minor, and a 30 cm Line is forced Major. -/
theorem c8_severity_classification_witness :
    get_defect_severity "Hole" 5 = .MAJOR ∧
    get_defect_severity "Foo" 5 = .MINOR ∧
    get_defect_severity "Line" 30 = .MAJOR := by
  refine ⟨(c8_severity_classification.1 5 (by norm_num)).1, ?_, ?_⟩
  · exact c8_severity_classification.2.1 "Foo" 5 (by norm_num)
      (by decide) (by decide) (by decide) (by decide)
  · exact c8_severity_classification.2.2 "Line" 30 (by norm_num)

/-- C9: in Major/Minor mode every defect, of any class and any length,
scores between 0.25 (one Minor increment: increments are floored at 1) and
4.0 (the per-defect clamp). -/
theorem c9_major_minor_bounds (l : ℚ) (sev : DefectSeverity) :
    1/4 ≤ calculate_major_minor_score l sev ∧ calculate_major_minor_score l sev ≤ 4 := by
  unfold calculate_major_minor_score
  have h1 : (1 : ℤ) ≤ max 1 (-(Int.fdiv (-(pyTrunc l)) 23)) := le_max_left _ _
  have h1q : (1 : ℚ) ≤ ((max 1 (-(Int.fdiv (-(pyTrunc l)) 23)) : ℤ) : ℚ) := by
    exact_mod_cast h1
  cases sev <;> simp only [] <;> constructor
  · exact le_min (by linarith) (by norm_num)
  · exact min_le_right _ _
  · refine le_min (by nlinarith) (by norm_num)
  · exact min_le_right _ _

/-- C1: the source Pricer has no density-proportional policy.  Evaluating
the code at a report of density 40 (four zero-length Holes on 10 m², the
grade-C band) with the default base price of 100: `calculate_price` prices
at the grade-C multiplier, 70 per m², while the density-proportional rate
claimed by the spec (and requested by the `PricingCalculator` call in
`app.py`) gives `min(40 * 0.5 / 100, 0.70) = 0.20`, hence 80 per m². -/
theorem c1_density_policy_missing :
    (score_fabric default_scorer
        [⟨some "Hole", some 0⟩, ⟨some "Hole", some 0⟩, ⟨some "Hole", some 0⟩,
         ⟨some "Hole", some 0⟩] 10 150).points_per_100m2 = 40 ∧
    (calculate_price default_calculator
        (score_fabric default_scorer
          [⟨some "Hole", some 0⟩, ⟨some "Hole", some 0⟩, ⟨some "Hole", some 0⟩,
           ⟨some "Hole", some 0⟩] 10 150) none).adjusted_price_per_m2 = 70 ∧
    spec_density_discount_rate 40 0.5 0.70 = 0.20 ∧
    default_calculator.base_price_per_m2 * (1 - spec_density_discount_rate 40 0.5 0.70) = 80 ∧
    (70 : ℚ) ≠ 80 := by
  rw [report_hole0_x4_area10]
  refine ⟨rfl, ?_, ?_, ?_, by norm_num⟩
  · rw [calculate_price]
    norm_num [resolve_base_price, default_calculator, DEFAULT_GRADE_MULTIPLIERS,
      pyRound2, pyRoundInt, show QualityGrade.C ≠ QualityGrade.REJECT from by decide]
  · norm_num [spec_density_discount_rate, min_def]
  · norm_num [spec_density_discount_rate, default_calculator, min_def]

/-- C3 counterexample: for a Reject-graded report priced with a non-zero
scrap price (base 100, scrap 20), the stored discount rate is 100% while
`1 - adjusted_price_per_m2 / base_price_per_m2 = 1 - 20/100 = 4/5`, so the
claimed identity fails even though the base price is positive. -/
theorem c3_counterexample :
    (calculate_price
        { base_price_per_m2 := 100, currency := "TL",
          grade_multipliers := DEFAULT_GRADE_MULTIPLIERS, reject_price_per_m2 := 20 }
        (score_fabric default_scorer [⟨some "Hole", some 0⟩] 1 150)
        none).discount_percentage / 100 = 1 ∧
    0 < (calculate_price
        { base_price_per_m2 := 100, currency := "TL",
          grade_multipliers := DEFAULT_GRADE_MULTIPLIERS, reject_price_per_m2 := 20 }
        (score_fabric default_scorer [⟨some "Hole", some 0⟩] 1 150)
        none).base_price_per_m2 ∧
    1 - (calculate_price
        { base_price_per_m2 := 100, currency := "TL",
          grade_multipliers := DEFAULT_GRADE_MULTIPLIERS, reject_price_per_m2 := 20 }
        (score_fabric default_scorer [⟨some "Hole", some 0⟩] 1 150)
        none).adjusted_price_per_m2 / (calculate_price
        { base_price_per_m2 := 100, currency := "TL",
          grade_multipliers := DEFAULT_GRADE_MULTIPLIERS, reject_price_per_m2 := 20 }
        (score_fabric default_scorer [⟨some "Hole", some 0⟩] 1 150)
        none).base_price_per_m2 = 4/5 ∧
    ((1 : ℚ) ≠ 4/5) := by
  rw [report_hole0_area1, calculate_price]
  norm_num [resolve_base_price, DEFAULT_GRADE_MULTIPLIERS, pyRound2, pyRound1, pyRoundInt]

/-- C3 (amended): the pre-rounding quantities satisfy the invariants —
discount_amount is the 2-decimal rounding of
`total_base_raw - total_adjusted_raw` for every call, and for a non-Reject
grade with positive resolved base price the pre-rounding adjusted price
satisfies `1 - adjusted_raw / base = 1 - multiplier`, which is exactly the
stored discount rate (up to its 1-decimal percent rounding).  When the
grade is Reject and a non-zero scrap price is substituted, the stored rate
stays `1 - reject_multiplier` and does not track `adjusted / base`;
monetary fields are rounded only in the returned result. -/
theorem c3_pricing_invariants :
    (∀ (pcalc : PricingCalculator) (report : QualityReport) (custom : Option ℚ),
        (calculate_price pcalc report custom).discount_amount
          = pyRound2 (resolve_base_price custom pcalc.base_price_per_m2 * report.fabric_area_m2
              - (if report.grade = .REJECT then pcalc.reject_price_per_m2
                 else resolve_base_price custom pcalc.base_price_per_m2
                   * ((pcalc.grade_multipliers report.grade).getD 0)) * report.fabric_area_m2)) ∧
    (∀ (pcalc : PricingCalculator) (report : QualityReport) (custom : Option ℚ),
        report.grade ≠ .REJECT →
        0 < resolve_base_price custom pcalc.base_price_per_m2 →
        (1 - (resolve_base_price custom pcalc.base_price_per_m2
                * ((pcalc.grade_multipliers report.grade).getD 0))
              / resolve_base_price custom pcalc.base_price_per_m2
            = 1 - (pcalc.grade_multipliers report.grade).getD 0) ∧
        (calculate_price pcalc report custom).discount_percentage
          = pyRound1 ((1 - (pcalc.grade_multipliers report.grade).getD 0) * 100)) := by
  constructor
  · intro pcalc report custom
    rfl
  · intro pcalc report custom hg hb
    constructor
    · rw [mul_comm, mul_div_assoc, div_self (ne_of_gt hb), mul_one]
    · rfl

/-- C3 witness: the amended invariants instantiated at the default
calculator on a grade-B report (one zero-length Hole on 4 m²). -/
theorem c3_pricing_invariants_witness :
    ((calculate_price default_calculator
        (score_fabric default_scorer [⟨some "Hole", some 0⟩] 4 150) none).discount_amount
      = pyRound2 (resolve_base_price none default_calculator.base_price_per_m2
          * (score_fabric default_scorer [⟨some "Hole", some 0⟩] 4 150).fabric_area_m2
          - (if (score_fabric default_scorer [⟨some "Hole", some 0⟩] 4 150).grade = .REJECT
             then default_calculator.reject_price_per_m2
             else resolve_base_price none default_calculator.base_price_per_m2
               * ((default_calculator.grade_multipliers
                    (score_fabric default_scorer [⟨some "Hole", some 0⟩] 4 150).grade).getD 0))
            * (score_fabric default_scorer [⟨some "Hole", some 0⟩] 4 150).fabric_area_m2)) ∧
    (1 - (resolve_base_price none default_calculator.base_price_per_m2
            * ((default_calculator.grade_multipliers
                 (score_fabric default_scorer [⟨some "Hole", some 0⟩] 4 150).grade).getD 0))
          / resolve_base_price none default_calculator.base_price_per_m2
        = 1 - (default_calculator.grade_multipliers
                 (score_fabric default_scorer [⟨some "Hole", some 0⟩] 4 150).grade).getD 0) := by
  have hg : (score_fabric default_scorer [⟨some "Hole", some 0⟩] 4 150).grade ≠ .REJECT := by
    rw [report_hole0_area4]
    simp
  have hb : 0 < resolve_base_price none default_calculator.base_price_per_m2 := by
    norm_num [resolve_base_price, default_calculator]
  exact ⟨c3_pricing_invariants.1 default_calculator
      (score_fabric default_scorer [⟨some "Hole", some 0⟩] 4 150) none,
    (c3_pricing_invariants.2 default_calculator
      (score_fabric default_scorer [⟨some "Hole", some 0⟩] 4 150) none hg hb).1⟩

/-- C4 counterexample: for a negative fabric area (-1 m²) the Scorer does
degrade gracefully (density 0, grade A), but the Pricer multiplies the
negative area through: the total base price is -100, not the zero total
the claim demands. -/
theorem c4_counterexample :
    (score_fabric default_scorer [] (-1) 150).points_per_100m2 = 0 ∧
    (score_fabric default_scorer [] (-1) 150).grade = .A ∧
    (calculate_price default_calculator (score_fabric default_scorer [] (-1) 150)
        none).total_base_price = -100 ∧
    ((-100 : ℚ) ≠ 0) := by
  rw [report_empty_negarea]
  refine ⟨rfl, rfl, ?_, by norm_num⟩
  rw [calculate_price]
  norm_num [resolve_base_price, default_calculator, DEFAULT_GRADE_MULTIPLIERS,
    pyRound2, pyRoundInt]

/-- C4 (amended): for every non-positive fabric area the Scorer reports
density 0 and grade A; the Pricer performs no guard of its own, so its
totals collapse to zero exactly when the report's area is zero (a negative
area instead propagates its sign into the totals). -/
theorem c4_degenerate_area :
    (∀ (s : QualityScorer) (defects : List DefectDict) (area width : ℚ), area ≤ 0 →
        (score_fabric s defects area width).points_per_100m2 = 0 ∧
        (score_fabric s defects area width).grade = .A) ∧
    (∀ (pcalc : PricingCalculator) (report : QualityReport) (custom : Option ℚ),
        report.fabric_area_m2 = 0 →
        (calculate_price pcalc report custom).total_base_price = 0 ∧
        (calculate_price pcalc report custom).total_adjusted_price = 0 ∧
        (calculate_price pcalc report custom).discount_amount = 0) := by
  constructor
  · intro s defects area width h
    have hne : ¬(area > 0) := not_lt.mpr h
    constructor
    · simp only [score_fabric, hne, if_false]
      exact pyRound2_zero_val
    · simp only [score_fabric, hne, if_false]
      norm_num [calculate_grade]
  · intro pcalc report custom h
    rw [calculate_price]
    simp only [h, mul_zero, sub_zero, sub_self]
    exact ⟨pyRound2_zero_val, pyRound2_zero_val, pyRound2_zero_val⟩

/-- C4 witness: the amended statement applied at area 0: the Scorer gives
density 0 and grade A, and pricing that report yields all-zero totals. -/
theorem c4_degenerate_area_witness :
    ((score_fabric default_scorer [] 0 150).points_per_100m2 = 0 ∧
     (score_fabric default_scorer [] 0 150).grade = .A) ∧
    ((calculate_price default_calculator (score_fabric default_scorer [] 0 150)
        none).total_base_price = 0 ∧
     (calculate_price default_calculator (score_fabric default_scorer [] 0 150)
        none).total_adjusted_price = 0 ∧
     (calculate_price default_calculator (score_fabric default_scorer [] 0 150)
        none).discount_amount = 0) :=
  ⟨c4_degenerate_area.1 default_scorer [] 0 150 (le_refl 0),
   c4_degenerate_area.2 default_calculator (score_fabric default_scorer [] 0 150) none rfl⟩

/-- C2 counterexample: the claim says increments equal
`ceil(length_cm / 23.0)` for every defect, but the source truncates the
length with `int()` first: a 23.5 cm Major defect yields 1 increment and
1.0 point, while `ceil(23.5 / 23) = 2` would demand 2.0 points. -/
theorem c2_counterexample :
    calculate_major_minor_score (47/2) .MAJOR = 1 ∧
    min (((max 1 ⌈((47 : ℚ)/2) / 23⌉ : ℤ) : ℚ) * 1) 4 = 2 := by
  constructor
  · have h0 : ⌊(47/2 : ℚ)⌋ = 23 := by norm_num
    have h1 : (-(23 : ℤ)).fdiv 23 = -1 := by decide
    simp [calculate_major_minor_score, pyTrunc]
    norm_num [h0, h1]
  · have hc : ⌈((47 : ℚ)/2) / 23⌉ = 2 := by
      rw [Int.ceil_eq_iff]
      norm_num
    rw [hc]
    norm_num [min_def]

/-- C2 (amended): in Major/Minor mode the increment count is
`max(1, ceil(trunc(length_cm) / 23))` — the length is truncated to an
integer before the ceiling division, which agrees with
`ceil(length_cm / 23)` on whole-number lengths — and points are
increments times 1.0 for Major and 0.25 for Minor before the 4.0 cap;
zero-length defects still cost one increment, and a 30 cm Line defect is
forced Major by the over-23 cm override and scores exactly 2.0 points. -/
theorem c2_major_minor_increments :
    (∀ n : ℕ, calculate_major_minor_score (n : ℚ) .MAJOR
        = min (((max 1 ⌈(n : ℚ) / 23⌉ : ℤ) : ℚ) * 1) 4) ∧
    (∀ n : ℕ, calculate_major_minor_score (n : ℚ) .MINOR
        = min (((max 1 ⌈(n : ℚ) / 23⌉ : ℤ) : ℚ) * 0.25) 4) ∧
    (get_defect_severity "Line" 30 = .MAJOR ∧ calculate_major_minor_score 30 .MAJOR = 2) ∧
    (calculate_major_minor_score 0 .MAJOR = 1 ∧ calculate_major_minor_score 0 .MINOR = 0.25) := by
  have key : ∀ n : ℕ, (max 1 (-(Int.fdiv (-(pyTrunc (n : ℚ))) 23)) : ℤ) = max 1 ⌈(n : ℚ) / 23⌉ := by
    intro n
    have ht : pyTrunc (n : ℚ) = (n : ℤ) := by
      rw [show ((n : ℚ)) = (((n : ℤ) : ℚ)) by push_cast; rfl]
      exact pyTrunc_intCast _
    rw [ht, neg_fdiv_neg_eq_ceil, show (((n : ℤ) : ℚ)) = ((n : ℚ)) by push_cast; rfl]
  have h30 : calculate_major_minor_score 30 .MAJOR = 2 := by
    have h1 : (-(30 : ℤ)).fdiv 23 = -2 := by decide
    simp [calculate_major_minor_score, pyTrunc]
    norm_num [h1]
  have h0t : pyTrunc (0 : ℚ) = 0 := by simp [pyTrunc]
  have h0f : (-(0 : ℤ)).fdiv 23 = 0 := by decide
  refine ⟨?_, ?_, ⟨?_, h30⟩, ?_, ?_⟩
  · intro n
    unfold calculate_major_minor_score
    rw [key n]
  · intro n
    unfold calculate_major_minor_score
    rw [key n]
  · norm_num [get_defect_severity, INCH_9_CM]
  · simp [calculate_major_minor_score, h0t, h0f]
  · simp [calculate_major_minor_score, h0t, h0f]
    norm_num [min_def]

/-- C5: in every QualityReport the total equals major plus minor points and
equals the sum of the per-defect points stored in the scored-defect list,
and the total is invariant under any reordering of the input defect list. -/
theorem c5_total_points_invariants :
    (∀ (s : QualityScorer) (defects : List DefectDict) (area width : ℚ),
        (score_fabric s defects area width).total_points
          = (score_fabric s defects area width).major_points
            + (score_fabric s defects area width).minor_points
        ∧ (score_fabric s defects area width).total_points
          = (((score_fabric s defects area width).defect_scores).map fun ds => ds.points).sum) ∧
    (∀ (s : QualityScorer) (l1 l2 : List DefectDict) (area width : ℚ),
        l1.Perm l2 →
        (score_fabric s l1 area width).total_points
          = (score_fabric s l2 area width).total_points) := by
  constructor
  · intro s defects area width
    simp only [score_fabric]
    rw [foldl_add_eq_sum, foldl_add_eq_sum, foldl_add_eq_sum]
    simp only [zero_add]
    have hqAll : ∀ q ∈ (defects.map (scored_defect s)).map (fun ds => ds.points), IsQuarter q := by
      intro q hq
      simp only [List.mem_map] at hq
      obtain ⟨ds, hds, rfl⟩ := hq
      obtain ⟨d, _, rfl⟩ := hds
      exact isQuarter_scored_points s d
    have hqT : IsQuarter ((defects.map (scored_defect s)).map (fun ds => ds.points)).sum :=
      isQuarter_sum _ hqAll
    have hqM : IsQuarter ((defects.map (scored_defect s)).map
        (fun ds => if ds.severity = DefectSeverity.MAJOR then ds.points else 0)).sum := by
      refine isQuarter_sum _ ?_
      intro q hq
      simp only [List.mem_map] at hq
      obtain ⟨ds, hds, rfl⟩ := hq
      obtain ⟨d, _, rfl⟩ := hds
      by_cases h : (scored_defect s d).severity = DefectSeverity.MAJOR <;> simp [h]
      · exact isQuarter_scored_points s d
      · exact isQuarter_zero
    have hqN : IsQuarter ((defects.map (scored_defect s)).map
        (fun ds => if ds.severity = DefectSeverity.MAJOR then 0 else ds.points)).sum := by
      refine isQuarter_sum _ ?_
      intro q hq
      simp only [List.mem_map] at hq
      obtain ⟨ds, hds, rfl⟩ := hq
      obtain ⟨d, _, rfl⟩ := hds
      by_cases h : (scored_defect s d).severity = DefectSeverity.MAJOR <;> simp [h]
      · exact isQuarter_zero
      · exact isQuarter_scored_points s d
    refine ⟨?_, ?_⟩
    · rw [pyRound2_of_isQuarter hqT, pyRound2_of_isQuarter hqM, pyRound2_of_isQuarter hqN,
        sum_points_split]
    · rw [pyRound2_of_isQuarter hqT]
  · intro s l1 l2 area width h
    simp only [score_fabric]
    rw [foldl_add_eq_sum, foldl_add_eq_sum]
    simp only [zero_add]
    have hsum : ((l1.map (scored_defect s)).map (fun ds => ds.points)).sum
        = ((l2.map (scored_defect s)).map (fun ds => ds.points)).sum :=
      List.Perm.sum_eq ((h.map (scored_defect s)).map fun ds => ds.points)
    rw [hsum]

/-- C5 witness: the aggregation invariants and order-invariance applied to
the concrete two-defect spec scenario (a 5 cm Hole and a 12 cm Stain) and
its swap. -/
theorem c5_total_points_invariants_witness :
    ((score_fabric default_scorer
        [⟨some "Hole", some 5⟩, ⟨some "Stain", some 12⟩] 50 150).total_points
      = (score_fabric default_scorer
        [⟨some "Hole", some 5⟩, ⟨some "Stain", some 12⟩] 50 150).major_points
        + (score_fabric default_scorer
        [⟨some "Hole", some 5⟩, ⟨some "Stain", some 12⟩] 50 150).minor_points) ∧
    ((score_fabric default_scorer
        [⟨some "Hole", some 5⟩, ⟨some "Stain", some 12⟩] 50 150).total_points
      = (score_fabric default_scorer
        [⟨some "Stain", some 12⟩, ⟨some "Hole", some 5⟩] 50 150).total_points) :=
  ⟨(c5_total_points_invariants.1 default_scorer
      [⟨some "Hole", some 5⟩, ⟨some "Stain", some 12⟩] 50 150).1,
   c5_total_points_invariants.2 default_scorer
      [⟨some "Hole", some 5⟩, ⟨some "Stain", some 12⟩]
      [⟨some "Stain", some 12⟩, ⟨some "Hole", some 5⟩] 50 150
      (List.Perm.swap _ _ _)⟩

/-- C10: a per-call custom base price of 0 is falsy in Python, so both
pricing entry points silently fall back to the calculator's configured
base price; zero-base pricing cannot be requested through the interface. -/
theorem c10_zero_custom_base_falls_back :
    (∀ (pcalc : PricingCalculator) (report : QualityReport),
      calculate_price pcalc report (some 0) = calculate_price pcalc report none ∧
      (calculate_price pcalc report (some 0)).base_price_per_m2 = pcalc.base_price_per_m2) ∧
    (∀ (pcalc : PricingCalculator) (grade : QualityGrade) (area : ℚ),
      calculate_price_simple pcalc grade area (some 0) = calculate_price_simple pcalc grade area none ∧
      (calculate_price_simple pcalc grade area (some 0)).base_price_per_m2 = pcalc.base_price_per_m2) := by
  constructor
  · intro pcalc report
    constructor <;> simp [calculate_price, resolve_base_price]
  · intro pcalc grade area
    constructor <;> simp [calculate_price_simple, resolve_base_price]

end TespitProje
